import Mathlib

/-!
# Verification of the vespene worker daemon (src/vespene/workers/daemon.py)

Shallow embedding of the worker daemon's claim / cleanup / termination
logic.  Timestamps are modelled as integer seconds (`Int`); a Django
`timedelta(minutes = m)` becomes `60 * m` seconds.  The persistent store
is a list of build rows together with the set of row ids currently held
under an exclusive row lock by *other* processes: `select_for_update`
with `nowait = True` raises `DatabaseError` exactly when the requested
row id is in that set.  External collaborators (`ImportManager` via
`import_organizations`, `Scheduler` via `schedule_builds`, and
`BuildLord` as the execution engine) are opaque in the source file, so
they are passed to `Daemon.body` as abstract state transformers.
-/

namespace Vespene

/-- Modelled from the spec: the status constants daemon.py imports from
vespene.models.build (a module outside the embedded file); the spec's
field-level store contract lists QUEUED, ABORTING, ABORTED, ORPHANED
plus execution-engine-owned states, represented here by `RUNNING`,
`SUCCESS` and `FAILURE`, which this core treats as opaque. -/
inductive Status
  | QUEUED
  | ABORTING
  | ABORTED
  | ORPHANED
  | RUNNING
  | SUCCESS
  | FAILURE
  deriving DecidableEq, Repr

open Status

/-- One Build row, modelled from the spec's field-level store contract
(the model class lives outside the embedded file; these are exactly the
fields daemon.py reads).  `worker_pool_name` is the name of the pool the
build belongs to; in the Django schema it is reachable both as
`worker_pool__name` (used by `find_build`) and as
`project__worker_pool__name` (used by `cleanup_orphaned_builds`) — both
paths denote the pool derived from the owning project, a single value
here. -/
structure Build where
  id : Nat
  project : Nat
  worker_pool_name : String
  status : Status
  queued_time : Int
  deriving DecidableEq, Repr

/-- The WorkerPool configuration fields daemon.py reads, modelled from
the spec's field-level store contract. -/
structure WorkerPool where
  name : String
  sleep_seconds : Nat
  auto_abort_minutes : Int
  build_latest : Bool
  deriving DecidableEq, Repr

/-- The persistent store as seen by one daemon process: the build table
plus the ids of build rows exclusively row-locked by other processes
(`select_for_update(nowait=True)` fails on exactly those). -/
structure DB where
  builds : List Build
  locked_builds : List Nat
  deriving DecidableEq, Repr

/-- `FLAG_ABORTED_AFTER_ABORTING_MINUTES = 1` (daemon.py line 29). -/
def FLAG_ABORTED_AFTER_ABORTING_MINUTES : Int := 1

/-- Daemon-private mutable state: the fields set by `Daemon.__init__`
and updated by `Daemon.body` (`self.pool`, `self.max_wait_minutes`,
`self.build_counter`, `self.build_id`, `self.time_counter`). -/
structure Daemon where
  pool : String
  max_wait_minutes : Int
  build_counter : Int
  build_id : Option Nat
  time_counter : Int
  deriving DecidableEq, Repr

/-- `Daemon.__init__(pool_name, max_wait_minutes=-1, max_builds=-1,
build_id=-1)`: when `build_id >= 0` the daemon is forced into
single-shot mode (`max_wait_minutes = -1`, `build_counter = 1`);
otherwise `build_id` is `None`.  `now` is the construction time stored
into `self.time_counter`. -/
def Daemon.init (pool_name : String) (max_wait_minutes : Int)
    (max_builds : Int) (build_id : Int) (now : Int) : Daemon :=
  if build_id ≥ 0 then
    { pool := pool_name
      max_wait_minutes := -1
      build_counter := 1
      build_id := some build_id.toNat
      time_counter := now }
  else
    { pool := pool_name
      max_wait_minutes := max_wait_minutes
      build_counter := max_builds
      build_id := none
      time_counter := now }

/-- The filter of the pool-wide queue scan (daemon.py lines 108-112):
`status = QUEUED, worker_pool__name = pool, queued_time__gt = threshold`. -/
def eligibleB (pool_name : String) (threshold : Int) (b : Build) : Bool :=
  decide (b.status = QUEUED ∧ b.worker_pool_name = pool_name ∧
    b.queued_time > threshold)

/-- The accumulator step of `order_by('id').first()`: keep the row with
the smaller id. -/
def pickMin (a c : Build) : Build :=
  if c.id < a.id then c else a

/-- `builds.order_by('id').first()`: the row with the smallest id, if any. -/
def minById : List Build → Option Build
  | [] => none
  | b :: rest => some (rest.foldl pickMin b)

/-- `Daemon.cleanup_extra_builds(first)` (daemon.py lines 129-136):
every QUEUED build of `first`'s project other than `first` itself is
updated to ABORTED. -/
def cleanup_extra_builds (first : Build) (db : DB) : DB :=
  { db with builds := db.builds.map (fun b =>
      if b.status = QUEUED ∧ b.project = first.project ∧ b.id ≠ first.id
      then { b with status := ABORTED } else b) }

/-- First half of `Daemon.cleanup_orphaned_builds` (lines 143-152):
QUEUED builds of this pool queued strictly before `now` minus the pool's
`auto_abort_minutes` become ORPHANED. -/
def orphanQueuedSweep (pool_name : String) (auto_abort_minutes : Int)
    (now : Int) (db : DB) : DB :=
  let threshold := now - 60 * auto_abort_minutes
  { db with builds := db.builds.map (fun b =>
      if b.status = QUEUED ∧ b.worker_pool_name = pool_name ∧
          b.queued_time < threshold
      then { b with status := ORPHANED } else b) }

/-- Second half of `Daemon.cleanup_orphaned_builds` (lines 155-163):
ABORTING builds of any pool queued strictly before `now` minus the fixed
one-minute grace period become ABORTED. -/
def stuckAbortSweep (now : Int) (db : DB) : DB :=
  let threshold := now - 60 * FLAG_ABORTED_AFTER_ABORTING_MINUTES
  { db with builds := db.builds.map (fun b =>
      if b.status = ABORTING ∧ b.queued_time < threshold
      then { b with status := ABORTED } else b) }

/-- `Daemon.cleanup_orphaned_builds` runs the two sweeps in order. -/
def cleanup_orphaned_builds (pool_name : String) (auto_abort_minutes : Int)
    (now : Int) (db : DB) : DB :=
  stuckAbortSweep now (orphanQueuedSweep pool_name auto_abort_minutes now db)

/-- Outcome of `Daemon.find_build`: `exitProcess` models the
`sys.exit(0)` on a missing targeted build; `found` carries the claimed
build together with the store state after the embedded
`cleanup_extra_builds`; `noBuild` is a `return None`. -/
inductive FindResult
  | exitProcess
  | found (b : Build) (db : DB)
  | noBuild (db : DB)
  deriving DecidableEq, Repr

/-- `Daemon.find_build` (daemon.py lines 97-125).  Targeted mode fetches
the build by primary key, with no status / pool / freshness filter and
no row lock, and exits the process if it does not exist.  Pool-wide mode
filters QUEUED builds of this pool queued after the freshness threshold,
takes the one with smallest id, tries the non-blocking row lock on it
(`DatabaseError`, i.e. the id being locked by another process, yields
`None`), and when more than one candidate existed and the pool's
`build_latest` policy is set, runs `cleanup_extra_builds` before
returning. -/
def Daemon.find_build (d : Daemon) (pool_obj : WorkerPool) (db : DB)
    (now : Int) : FindResult :=
  match d.build_id with
  | some bid =>
    match db.builds.find? (fun b => decide (b.id = bid)) with
    | some b => .found b db
    | none => .exitProcess
  | none =>
    let threshold := now - 60 * pool_obj.auto_abort_minutes
    let builds := db.builds.filter (eligibleB d.pool threshold)
    let count := builds.length
    if count = 0 then .noBuild db
    else
      match minById builds with
      | none => .noBuild db
      | some first =>
        if decide (first.id ∈ db.locked_builds) then .noBuild db
        else if count > 1 ∧ pool_obj.build_latest then
          .found first (cleanup_extra_builds first db)
        else .found first db

/-- The externally visible steps of one tick body, in the order
`Daemon.body` invokes them. -/
inductive Step
  | importOrganizations
  | cleanupOrphanedBuilds
  | scheduleBuilds
  | findBuildStep
  deriving DecidableEq, Repr

/-- Result of one run of `Daemon.body`: whether `sys.exit(0)` was
reached, the daemon state, the store state, and the trace of tick steps
in execution order. -/
structure TickResult where
  exited : Bool
  daemon : Daemon
  db : DB
  trace : List Step
  deriving DecidableEq, Repr

/-- `Daemon.body` (daemon.py lines 187-215).  In source order:
`self.import_organizations()`, `self.cleanup_orphaned_builds()`,
`self.schedule_builds()`, then `self.find_build(build_id=self.build_id)`.
On a claimed build: reset `time_counter`, run the execution engine,
decrement `build_counter`, and exit when the counter equals zero.  On no
build: exit when `max_wait_minutes > 0` and
`delta.total_seconds() * 60 > max_wait_minutes` (the comparison exactly
as written in the source, `delta` in seconds). -/
def Daemon.body (imp sched : DB → DB) (ex : Build → DB → DB)
    (d : Daemon) (pool_obj : WorkerPool) (db : DB) (now : Int) : TickResult :=
  let db1 := imp db
  let db2 := cleanup_orphaned_builds d.pool pool_obj.auto_abort_minutes now db1
  let db3 := sched db2
  let tr := [Step.importOrganizations, Step.cleanupOrphanedBuilds,
             Step.scheduleBuilds, Step.findBuildStep]
  match d.find_build pool_obj db3 now with
  | .exitProcess => { exited := true, daemon := d, db := db3, trace := tr }
  | .found build db4 =>
    let db5 := ex build db4
    let d2 := { d with time_counter := now, build_counter := d.build_counter - 1 }
    { exited := decide (d2.build_counter = 0), daemon := d2, db := db5, trace := tr }
  | .noBuild db4 =>
    let delta := now - d.time_counter
    { exited := decide (d.max_wait_minutes > 0 ∧ delta * 60 > d.max_wait_minutes)
      daemon := d, db := db4, trace := tr }

/-! ## Helper lemmas about the FIFO selection -/

theorem foldl_pickMin_mem (l : List Build) (b : Build) :
    l.foldl pickMin b = b ∨ l.foldl pickMin b ∈ l := by
  induction l generalizing b with
  | nil => exact Or.inl rfl
  | cons c cs ih =>
    rcases ih (pickMin b c) with h | h
    · rw [List.foldl_cons, h]
      unfold pickMin
      split
      · exact Or.inr (List.mem_cons_self _ _)
      · exact Or.inl rfl
    · rw [List.foldl_cons]
      exact Or.inr (List.mem_cons_of_mem _ h)

theorem foldl_pickMin_le (l : List Build) (b : Build) :
    (l.foldl pickMin b).id ≤ b.id ∧ ∀ c ∈ l, (l.foldl pickMin b).id ≤ c.id := by
  induction l generalizing b with
  | nil => exact ⟨le_refl _, by simp⟩
  | cons c cs ih =>
    have h := ih (pickMin b c)
    have hb : (pickMin b c).id ≤ b.id := by
      unfold pickMin; split <;> omega
    have hc : (pickMin b c).id ≤ c.id := by
      unfold pickMin; split <;> omega
    refine ⟨le_trans (by rw [List.foldl_cons]; exact h.1) hb, ?_⟩
    intro x hx
    rcases List.mem_cons.mp hx with rfl | hx
    · exact le_trans (by rw [List.foldl_cons]; exact h.1) hc
    · rw [List.foldl_cons]
      exact h.2 x hx

theorem minById_mem (l : List Build) (m : Build) (h : minById l = some m) :
    m ∈ l := by
  cases l with
  | nil => simp [minById] at h
  | cons b rest =>
    simp only [minById, Option.some.injEq] at h
    rcases foldl_pickMin_mem rest b with h2 | h2
    · rw [h] at h2; rw [h2]; exact List.mem_cons_self _ _
    · rw [h] at h2; exact List.mem_cons_of_mem _ h2

theorem minById_le (l : List Build) (m : Build) (h : minById l = some m) :
    ∀ b ∈ l, m.id ≤ b.id := by
  cases l with
  | nil => simp [minById] at h
  | cons b rest =>
    simp only [minById, Option.some.injEq] at h
    intro x hx
    rcases List.mem_cons.mp hx with rfl | hx
    · rw [← h]; exact (foldl_pickMin_le rest x).1
    · rw [← h]; exact (foldl_pickMin_le rest b).2 x hx

theorem minById_isSome (l : List Build) (h : l ≠ []) :
    ∃ m, minById l = some m := by
  cases l with
  | nil => exact absurd rfl h
  | cons b rest => exact ⟨rest.foldl pickMin b, rfl⟩

/-! ## C1: pool-wide claim selection -/

/-- Claim C1: in pool-wide mode, among QUEUED builds of this pool whose
queued timestamp is strictly newer than `now` minus the auto-abort
window, `find_build` selects the one with the smallest identifier; if no
build qualifies, or the non-blocking row lock on the selected build is
already held by another process, it yields no build. -/
theorem find_build_pool_wide_fifo (d : Daemon) (p : WorkerPool) (db : DB)
    (now : Int) (hmode : d.build_id = none) :
    let elig := db.builds.filter (eligibleB d.pool (now - 60 * p.auto_abort_minutes))
    (elig = [] → d.find_build p db now = .noBuild db) ∧
    (∀ m, minById elig = some m → m.id ∈ db.locked_builds →
      d.find_build p db now = .noBuild db) ∧
    (∀ m, minById elig = some m → m.id ∉ db.locked_builds →
      (∃ db2, d.find_build p db now = .found m db2) ∧
      m ∈ elig ∧ ∀ b ∈ elig, m.id ≤ b.id) := by
  intro elig
  refine ⟨?_, ?_, ?_⟩
  · intro hnil
    unfold Daemon.find_build
    rw [hmode]
    simp only
    rw [show db.builds.filter (eligibleB d.pool (now - 60 * p.auto_abort_minutes)) = elig from rfl]
    rw [hnil]
    simp
  · intro m hm hlock
    unfold Daemon.find_build
    rw [hmode]
    simp only
    rw [show db.builds.filter (eligibleB d.pool (now - 60 * p.auto_abort_minutes)) = elig from rfl]
    have hne : elig ≠ [] := by
      intro hnil; rw [hnil] at hm; simp [minById] at hm
    rw [if_neg (by simpa [List.length_eq_zero] using hne)]
    rw [hm]
    simp [hlock]
  · intro m hm hlock
    refine ⟨?_, minById_mem _ _ hm, minById_le _ _ hm⟩
    unfold Daemon.find_build
    rw [hmode]
    simp only
    rw [show db.builds.filter (eligibleB d.pool (now - 60 * p.auto_abort_minutes)) = elig from rfl]
    have hne : elig ≠ [] := by
      intro hnil; rw [hnil] at hm; simp [minById] at hm
    rw [if_neg (by simpa [List.length_eq_zero] using hne)]
    rw [hm]
    by_cases hdup : elig.length > 1 ∧ p.build_latest
    · exact ⟨cleanup_extra_builds m db, by simp [hlock, hdup]⟩
    · exact ⟨db, by simp [hlock, hdup]⟩

/-- Witness for C1 at a concrete store: two fresh QUEUED builds in pool
"p", neither locked; the claim returns the one with id 1. -/
theorem find_build_pool_wide_fifo_witness :
    ∃ db2,
      Daemon.find_build
        { pool := "p", max_wait_minutes := -1, build_counter := -1,
          build_id := none, time_counter := 0 }
        { name := "p", sleep_seconds := 1, auto_abort_minutes := 60,
          build_latest := false }
        { builds := [
            { id := 2, project := 7, worker_pool_name := "p",
              status := .QUEUED, queued_time := -10 },
            { id := 1, project := 7, worker_pool_name := "p",
              status := .QUEUED, queued_time := -5 }],
          locked_builds := [] }
        0
      = .found
          { id := 1, project := 7, worker_pool_name := "p",
            status := .QUEUED, queued_time := -5 } db2 := by
  have h := (find_build_pool_wide_fifo
    { pool := "p", max_wait_minutes := -1, build_counter := -1,
      build_id := none, time_counter := 0 }
    { name := "p", sleep_seconds := 1, auto_abort_minutes := 60,
      build_latest := false }
    { builds := [
        { id := 2, project := 7, worker_pool_name := "p",
          status := .QUEUED, queued_time := -10 },
        { id := 1, project := 7, worker_pool_name := "p",
          status := .QUEUED, queued_time := -5 }],
      locked_builds := [] }
    0 rfl).2.2
    { id := 1, project := 7, worker_pool_name := "p",
      status := .QUEUED, queued_time := -5 }
    (by decide) (by decide)
  exact h.1

/-! ## C4: order of the tick body steps -/

/-- Counterexample to claim C4 as stated: at a concrete tick, the body's
step trace is not "Scheduler first, then Reaper, then organization
import, then claim". -/
theorem body_step_order_not_scheduler_first :
    ¬ ((Daemon.body id id (fun _ db => db)
        { pool := "p", max_wait_minutes := -1, build_counter := -1,
          build_id := none, time_counter := 0 }
        { name := "p", sleep_seconds := 1, auto_abort_minutes := 60,
          build_latest := false }
        { builds := [], locked_builds := [] } 0).trace
      = [Step.scheduleBuilds, Step.cleanupOrphanedBuilds,
         Step.importOrganizations, Step.findBuildStep]) := by
  decide

/-- Claim C4 amended: every tick body executes organization import
first, then the Reaper's two sweeps, then the Scheduler, and finally the
claim attempt — this is the source order of daemon.py lines 192-196,
not the Scheduler-first order the claim states. -/
theorem body_step_order (imp sched : DB → DB) (ex : Build → DB → DB)
    (d : Daemon) (p : WorkerPool) (db : DB) (now : Int) :
    (Daemon.body imp sched ex d p db now).trace
      = [Step.importOrganizations, Step.cleanupOrphanedBuilds,
         Step.scheduleBuilds, Step.findBuildStep] := by
  simp only [Daemon.body]
  split <;> rfl

/-! ## C3: the idle-timeout comparison -/

/-- Claim C3 fails on the code: with `max_wait_minutes = 5` and an empty
queue, the daemon exits after only 60 seconds of idleness, because the
source tests `delta.total_seconds() * 60 > max_wait_minutes` (line 213),
multiplying the elapsed seconds by 60 instead of converting them to
minutes.  The theorem evaluates the embedded body at that input: the
tick exits even though the elapsed time (60 s) is far below the
5-minute (300 s) timeout. -/
theorem idle_timeout_fires_sixty_times_early :
    (Daemon.body id id (fun _ db => db)
      (Daemon.init "p" 5 (-1) (-1) 0)
      { name := "p", sleep_seconds := 1, auto_abort_minutes := 60,
        build_latest := false }
      { builds := [], locked_builds := [] } 60).exited = true ∧
    (60 : Int) - (Daemon.init "p" 5 (-1) (-1) 0).time_counter < 5 * 60 := by
  constructor
  · decide
  · decide

/-! ## C2: targeted mode with a missing build -/

/-- Counterexample to claim C2 as stated: a daemon targeted at build id
99 (absent from the store) does exit cleanly, but it mutates state
before exiting — the tick body runs the reaper sweeps before
`find_build`, and here they orphan a stale QUEUED build, so the store
differs from its initial contents. -/
theorem targeted_missing_build_mutates_state :
    (Daemon.body id id (fun _ db => db)
      (Daemon.init "p" (-1) (-1) 99 0)
      { name := "p", sleep_seconds := 1, auto_abort_minutes := 60,
        build_latest := false }
      { builds := [
          { id := 1, project := 1, worker_pool_name := "p",
            status := .QUEUED, queued_time := -100000 }],
        locked_builds := [] } 0).exited = true ∧
    (Daemon.body id id (fun _ db => db)
      (Daemon.init "p" (-1) (-1) 99 0)
      { name := "p", sleep_seconds := 1, auto_abort_minutes := 60,
        build_latest := false }
      { builds := [
          { id := 1, project := 1, worker_pool_name := "p",
            status := .QUEUED, queued_time := -100000 }],
        locked_builds := [] } 0).db.builds
      ≠ [{ id := 1, project := 1, worker_pool_name := "p",
           status := .QUEUED, queued_time := -100000 }] := by
  constructor
  · decide
  · decide

/-- Claim C2 amended: a daemon constructed with a build identifier
absent from the store terminates the tick with a clean exit and its
claim step mutates nothing — but only after the tick body has already
run organization import, the reaper sweeps, and the scheduler, which may
themselves mutate stored entities.  The resulting store is exactly the
state those three prior steps produced. -/
theorem targeted_missing_build_clean_exit (imp sched : DB → DB)
    (ex : Build → DB → DB) (d : Daemon) (p : WorkerPool) (db : DB)
    (now : Int) (bid : Nat) (hd : d.build_id = some bid)
    (habsent :
      (sched (cleanup_orphaned_builds d.pool p.auto_abort_minutes now
        (imp db))).builds.find? (fun b => decide (b.id = bid)) = none) :
    Daemon.body imp sched ex d p db now =
      { exited := true
        daemon := d
        db := sched (cleanup_orphaned_builds d.pool p.auto_abort_minutes now (imp db))
        trace := [Step.importOrganizations, Step.cleanupOrphanedBuilds,
                  Step.scheduleBuilds, Step.findBuildStep] } := by
  simp only [Daemon.body, Daemon.find_build, hd, habsent]

/-- Witness for the amended C2 at a concrete store: same scenario as the
counterexample; the body exits cleanly and the final store is exactly
the post-reaper state (the stale build orphaned), with no further
mutation from the claim step. -/
theorem targeted_missing_build_clean_exit_witness :
    Daemon.body id id (fun _ db => db)
      (Daemon.init "p" (-1) (-1) 99 0)
      { name := "p", sleep_seconds := 1, auto_abort_minutes := 60,
        build_latest := false }
      { builds := [
          { id := 1, project := 1, worker_pool_name := "p",
            status := .QUEUED, queued_time := -100000 }],
        locked_builds := [] } 0 =
      { exited := true
        daemon := Daemon.init "p" (-1) (-1) 99 0
        db := { builds := [
                  { id := 1, project := 1, worker_pool_name := "p",
                    status := .ORPHANED, queued_time := -100000 }],
                locked_builds := [] }
        trace := [Step.importOrganizations, Step.cleanupOrphanedBuilds,
                  Step.scheduleBuilds, Step.findBuildStep] } := by
  have h := targeted_missing_build_clean_exit id id (fun _ db => db)
    (Daemon.init "p" (-1) (-1) 99 0)
    { name := "p", sleep_seconds := 1, auto_abort_minutes := 60,
      build_latest := false }
    { builds := [
        { id := 1, project := 1, worker_pool_name := "p",
          status := .QUEUED, queued_time := -100000 }],
      locked_builds := [] } 0 99 rfl (by decide)
  rw [h]
  decide

/-! ## C9: targeted mode performs no eligibility checks and no locking -/

/-- Claim C9: in targeted mode, `find_build` returns the build fetched
by identifier with no status, pool, freshness, or row-lock condition (no
hypothesis below constrains the found build or `locked_builds`), and the
tick body hands exactly that build to the execution engine. -/
theorem targeted_claim_unchecked (imp sched : DB → DB)
    (ex : Build → DB → DB) (d : Daemon) (p : WorkerPool) (db : DB)
    (now : Int) (bid : Nat) (c : Build) (hd : d.build_id = some bid)
    (hc : (sched (cleanup_orphaned_builds d.pool p.auto_abort_minutes now
      (imp db))).builds.find? (fun b => decide (b.id = bid)) = some c) :
    d.find_build p
      (sched (cleanup_orphaned_builds d.pool p.auto_abort_minutes now (imp db))) now
      = .found c
          (sched (cleanup_orphaned_builds d.pool p.auto_abort_minutes now (imp db))) ∧
    Daemon.body imp sched ex d p db now =
      { exited := decide (d.build_counter - 1 = 0)
        daemon := { d with time_counter := now,
                           build_counter := d.build_counter - 1 }
        db := ex c (sched (cleanup_orphaned_builds d.pool p.auto_abort_minutes now (imp db)))
        trace := [Step.importOrganizations, Step.cleanupOrphanedBuilds,
                  Step.scheduleBuilds, Step.findBuildStep] } := by
  constructor
  · simp only [Daemon.find_build, hd, hc]
  · simp only [Daemon.body, Daemon.find_build, hd, hc]

/-- Witness for C9: the targeted build has status ABORTED, sits in a
different pool ("q", while the daemon serves "p"), is far staler than
the freshness horizon, and its row is even held locked by another
process — yet targeted mode claims it, hands it to the execution engine,
and exits (single-shot counter 1 reaches 0). -/
theorem targeted_claim_unchecked_witness :
    Daemon.find_build (Daemon.init "p" (-1) (-1) 5 0)
      { name := "p", sleep_seconds := 1, auto_abort_minutes := 60,
        build_latest := true }
      { builds := [
          { id := 5, project := 3, worker_pool_name := "q",
            status := .ABORTED, queued_time := -100000 }],
        locked_builds := [5] } 0
      = .found
          { id := 5, project := 3, worker_pool_name := "q",
            status := .ABORTED, queued_time := -100000 }
          { builds := [
              { id := 5, project := 3, worker_pool_name := "q",
                status := .ABORTED, queued_time := -100000 }],
            locked_builds := [5] } ∧
    (Daemon.body id id (fun _ db => db) (Daemon.init "p" (-1) (-1) 5 0)
      { name := "p", sleep_seconds := 1, auto_abort_minutes := 60,
        build_latest := true }
      { builds := [
          { id := 5, project := 3, worker_pool_name := "q",
            status := .ABORTED, queued_time := -100000 }],
        locked_builds := [5] } 0).exited = true := by
  have h := targeted_claim_unchecked id id (fun _ db => db)
    (Daemon.init "p" (-1) (-1) 5 0)
    { name := "p", sleep_seconds := 1, auto_abort_minutes := 60,
      build_latest := true }
    { builds := [
        { id := 5, project := 3, worker_pool_name := "q",
          status := .ABORTED, queued_time := -100000 }],
      locked_builds := [5] } 0 5
    { id := 5, project := 3, worker_pool_name := "q",
      status := .ABORTED, queued_time := -100000 }
    rfl (by decide)
  refine ⟨?_, ?_⟩
  · exact h.1
  · rw [h.2]
    rfl

/-! ## C10: max-builds equal to zero means unlimited -/

/-- Claim C10: a daemon constructed with `max_builds = 0` and no
specific build id starts with `build_counter = 0`; on every tick that
claims a build while the counter is at most zero, the counter is
decremented past zero (never equal to zero afterwards), so the
build-count termination rule never fires and the daemon behaves as if
unlimited. -/
theorem max_builds_zero_never_triggers_exit (pn : String) (mw now0 : Int) :
    (Daemon.init pn mw 0 (-1) now0).build_counter = 0 ∧
    (Daemon.init pn mw 0 (-1) now0).build_id = none ∧
    ∀ (imp sched : DB → DB) (ex : Build → DB → DB) (d : Daemon)
      (p : WorkerPool) (db : DB) (now : Int) (c : Build) (db4 : DB),
      d.build_counter ≤ 0 →
      d.find_build p
        (sched (cleanup_orphaned_builds d.pool p.auto_abort_minutes now (imp db))) now
        = .found c db4 →
      (Daemon.body imp sched ex d p db now).exited = false ∧
      (Daemon.body imp sched ex d p db now).daemon.build_counter
        = d.build_counter - 1 ∧
      (Daemon.body imp sched ex d p db now).daemon.build_counter ≤ 0 := by
  refine ⟨by simp [Daemon.init], by simp [Daemon.init], ?_⟩
  intro imp sched ex d p db now c db4 hle hfind
  have hbody : Daemon.body imp sched ex d p db now =
      { exited := decide (d.build_counter - 1 = 0)
        daemon := { d with time_counter := now,
                           build_counter := d.build_counter - 1 }
        db := ex c db4
        trace := [Step.importOrganizations, Step.cleanupOrphanedBuilds,
                  Step.scheduleBuilds, Step.findBuildStep] } := by
    simp only [Daemon.body, hfind]
  rw [hbody]
  refine ⟨?_, rfl, by simp; omega⟩
  simp only [decide_eq_false_iff_not]
  omega

/-- Witness for C10: a fresh QUEUED build exists and is claimed, the
counter (starting at 0 via `Daemon.init` with `max_builds = 0`) drops to
-1, and the tick does not exit. -/
theorem max_builds_zero_never_triggers_exit_witness :
    (Daemon.body id id (fun _ db => db) (Daemon.init "p" (-1) 0 (-1) 0)
      { name := "p", sleep_seconds := 1, auto_abort_minutes := 60,
        build_latest := true }
      { builds := [
          { id := 1, project := 1, worker_pool_name := "p",
            status := .QUEUED, queued_time := -5 }],
        locked_builds := [] } 0).exited = false ∧
    (Daemon.body id id (fun _ db => db) (Daemon.init "p" (-1) 0 (-1) 0)
      { name := "p", sleep_seconds := 1, auto_abort_minutes := 60,
        build_latest := true }
      { builds := [
          { id := 1, project := 1, worker_pool_name := "p",
            status := .QUEUED, queued_time := -5 }],
        locked_builds := [] } 0).daemon.build_counter = -1 := by
  have h := (max_builds_zero_never_triggers_exit "p" (-1) 0).2.2
    id id (fun _ db => db) (Daemon.init "p" (-1) 0 (-1) 0)
    { name := "p", sleep_seconds := 1, auto_abort_minutes := 60,
      build_latest := true }
    { builds := [
        { id := 1, project := 1, worker_pool_name := "p",
          status := .QUEUED, queued_time := -5 }],
      locked_builds := [] } 0
    { id := 1, project := 1, worker_pool_name := "p",
      status := .QUEUED, queued_time := -5 }
    { builds := [
        { id := 1, project := 1, worker_pool_name := "p",
          status := .QUEUED, queued_time := -5 }],
      locked_builds := [] }
    (by decide) (by decide)
  exact ⟨h.1, h.2.1⟩

/-! ## Inversion of a successful pool-wide claim -/

/-- If a pool-wide `find_build` returns a build, that build is the
minimum-id eligible build, its row was not locked, and the resulting
store is either the duplicate-cleanup image (when more than one
candidate existed and the pool policy is on) or the store unchanged. -/
theorem find_build_found_inv (d : Daemon) (p : WorkerPool) (db : DB)
    (now : Int) (b : Build) (db2 : DB) (hmode : d.build_id = none)
    (h : d.find_build p db now = .found b db2) :
    minById (db.builds.filter
      (eligibleB d.pool (now - 60 * p.auto_abort_minutes))) = some b ∧
    b.id ∉ db.locked_builds ∧
    (((db.builds.filter
        (eligibleB d.pool (now - 60 * p.auto_abort_minutes))).length > 1 ∧
      p.build_latest = true ∧ db2 = cleanup_extra_builds b db) ∨
     (¬((db.builds.filter
        (eligibleB d.pool (now - 60 * p.auto_abort_minutes))).length > 1 ∧
       p.build_latest = true) ∧ db2 = db)) := by
  unfold Daemon.find_build at h
  rw [hmode] at h
  simp only at h
  split at h
  · exact FindResult.noConfusion h
  · split at h
    · exact FindResult.noConfusion h
    · rename_i hm
      split at h
      · exact FindResult.noConfusion h
      · rename_i hlock
        split at h
        · rename_i hdup
          injection h with h1 h2
          subst h1
          exact ⟨hm, by simpa using hlock, Or.inl ⟨hdup.1, hdup.2, h2.symm⟩⟩
        · rename_i hdup
          injection h with h1 h2
          subst h1
          exact ⟨hm, by simpa using hlock, Or.inr ⟨hdup, h2.symm⟩⟩

/-! ## C5: duplicate-build cancellation on a successful claim -/

/-- Claim C5: with the pool's duplicate-build policy enabled and more
than one eligible candidate, a successful pool-wide claim turns every
other QUEUED build of the claimed build's project into ABORTED, leaves
builds of other projects untouched, and the claimed build itself (the
minimum id) stays QUEUED. -/
theorem claim_aborts_duplicate_queued (d : Daemon) (p : WorkerPool)
    (db : DB) (now : Int) (first : Build) (db2 : DB)
    (hmode : d.build_id = none)
    (hfind : d.find_build p db now = .found first db2)
    (hpol : p.build_latest = true)
    (hcount : 1 < (db.builds.filter
      (eligibleB d.pool (now - 60 * p.auto_abort_minutes))).length) :
    (∀ b ∈ db.builds, b.status = QUEUED → b.project = first.project →
      b.id ≠ first.id → { b with status := ABORTED } ∈ db2.builds) ∧
    (∀ b ∈ db.builds, b.project ≠ first.project → b ∈ db2.builds) ∧
    first ∈ db2.builds ∧ first.status = QUEUED := by
  obtain ⟨hm, _, hcase⟩ := find_build_found_inv d p db now first db2 hmode hfind
  have hdb2 : db2 = cleanup_extra_builds first db := by
    rcases hcase with ⟨_, _, h⟩ | ⟨hn, _⟩
    · exact h
    · exact absurd ⟨hcount, hpol⟩ hn
  subst hdb2
  have hfe := minById_mem _ _ hm
  have hfdb := (List.mem_filter.mp hfe).1
  have hfq : first.status = QUEUED := by
    have h2 := (List.mem_filter.mp hfe).2
    simp only [eligibleB, decide_eq_true_eq] at h2
    exact h2.1
  refine ⟨?_, ?_, ?_, hfq⟩
  · intro b hb h1 h2 h3
    simp only [cleanup_extra_builds]
    exact List.mem_map.mpr ⟨b, hb, by simp [h1, h2, h3]⟩
  · intro b hb hne
    simp only [cleanup_extra_builds]
    refine List.mem_map.mpr ⟨b, hb, ?_⟩
    rw [if_neg]
    intro hc
    exact hne hc.2.1
  · simp only [cleanup_extra_builds]
    refine List.mem_map.mpr ⟨first, hfdb, ?_⟩
    rw [if_neg]
    intro hc
    exact hc.2.2 rfl

/-- Witness for C5: three fresh QUEUED builds (ids 1, 2, 3) of project 7
and one QUEUED build (id 4) of project 8, policy on.  The claim returns
build 1, builds 2 and 3 become ABORTED, builds 1 and 4 stay QUEUED. -/
theorem claim_aborts_duplicate_queued_witness :
    ({ id := 2, project := 7, worker_pool_name := "p",
       status := Status.ABORTED, queued_time := -5 } : Build) ∈
      (DB.mk [
        { id := 1, project := 7, worker_pool_name := "p",
          status := .QUEUED, queued_time := -5 },
        { id := 2, project := 7, worker_pool_name := "p",
          status := .ABORTED, queued_time := -5 },
        { id := 3, project := 7, worker_pool_name := "p",
          status := .ABORTED, queued_time := -5 },
        { id := 4, project := 8, worker_pool_name := "p",
          status := .QUEUED, queued_time := -5 }] []).builds ∧
    Daemon.find_build
      { pool := "p", max_wait_minutes := -1, build_counter := -1,
        build_id := none, time_counter := 0 }
      { name := "p", sleep_seconds := 1, auto_abort_minutes := 60,
        build_latest := true }
      (DB.mk [
        { id := 1, project := 7, worker_pool_name := "p",
          status := .QUEUED, queued_time := -5 },
        { id := 2, project := 7, worker_pool_name := "p",
          status := .QUEUED, queued_time := -5 },
        { id := 3, project := 7, worker_pool_name := "p",
          status := .QUEUED, queued_time := -5 },
        { id := 4, project := 8, worker_pool_name := "p",
          status := .QUEUED, queued_time := -5 }] []) 0
      = .found
          { id := 1, project := 7, worker_pool_name := "p",
            status := .QUEUED, queued_time := -5 }
          (DB.mk [
            { id := 1, project := 7, worker_pool_name := "p",
              status := .QUEUED, queued_time := -5 },
            { id := 2, project := 7, worker_pool_name := "p",
              status := .ABORTED, queued_time := -5 },
            { id := 3, project := 7, worker_pool_name := "p",
              status := .ABORTED, queued_time := -5 },
            { id := 4, project := 8, worker_pool_name := "p",
              status := .QUEUED, queued_time := -5 }] []) := by
  have hfind : Daemon.find_build
      { pool := "p", max_wait_minutes := -1, build_counter := -1,
        build_id := none, time_counter := 0 }
      { name := "p", sleep_seconds := 1, auto_abort_minutes := 60,
        build_latest := true }
      (DB.mk [
        { id := 1, project := 7, worker_pool_name := "p",
          status := .QUEUED, queued_time := -5 },
        { id := 2, project := 7, worker_pool_name := "p",
          status := .QUEUED, queued_time := -5 },
        { id := 3, project := 7, worker_pool_name := "p",
          status := .QUEUED, queued_time := -5 },
        { id := 4, project := 8, worker_pool_name := "p",
          status := .QUEUED, queued_time := -5 }] []) 0
      = .found
          { id := 1, project := 7, worker_pool_name := "p",
            status := .QUEUED, queued_time := -5 }
          (DB.mk [
            { id := 1, project := 7, worker_pool_name := "p",
              status := .QUEUED, queued_time := -5 },
            { id := 2, project := 7, worker_pool_name := "p",
              status := .ABORTED, queued_time := -5 },
            { id := 3, project := 7, worker_pool_name := "p",
              status := .ABORTED, queued_time := -5 },
            { id := 4, project := 8, worker_pool_name := "p",
              status := .QUEUED, queued_time := -5 }] []) := by decide
  have h := (claim_aborts_duplicate_queued
    { pool := "p", max_wait_minutes := -1, build_counter := -1,
      build_id := none, time_counter := 0 }
    { name := "p", sleep_seconds := 1, auto_abort_minutes := 60,
      build_latest := true }
    (DB.mk [
      { id := 1, project := 7, worker_pool_name := "p",
        status := .QUEUED, queued_time := -5 },
      { id := 2, project := 7, worker_pool_name := "p",
        status := .QUEUED, queued_time := -5 },
      { id := 3, project := 7, worker_pool_name := "p",
        status := .QUEUED, queued_time := -5 },
      { id := 4, project := 8, worker_pool_name := "p",
        status := .QUEUED, queued_time := -5 }] []) 0
    { id := 1, project := 7, worker_pool_name := "p",
      status := .QUEUED, queued_time := -5 }
    (DB.mk [
      { id := 1, project := 7, worker_pool_name := "p",
        status := .QUEUED, queued_time := -5 },
      { id := 2, project := 7, worker_pool_name := "p",
        status := .ABORTED, queued_time := -5 },
      { id := 3, project := 7, worker_pool_name := "p",
        status := .ABORTED, queued_time := -5 },
      { id := 4, project := 8, worker_pool_name := "p",
        status := .QUEUED, queued_time := -5 }] []) rfl hfind rfl
    (by decide)).1
    { id := 2, project := 7, worker_pool_name := "p",
      status := .QUEUED, queued_time := -5 }
    (by decide) rfl rfl (by decide)
  exact ⟨h, hfind⟩

/-! ## C6: orphan sweep and unclaimability of ORPHANED builds -/

/-- Claim C6: the unclaimed-timeout sweep turns every QUEUED build of
this pool queued strictly before `now` minus the auto-abort window into
ORPHANED, and any build a pool-wide claim returns has status QUEUED — so
an ORPHANED build is never subsequently selectable by the claim engine. -/
theorem orphan_sweep_terminal_unclaimable :
    (∀ (db : DB) (pool : String) (am now : Int) (b : Build),
      b ∈ db.builds → b.status = QUEUED → b.worker_pool_name = pool →
      b.queued_time < now - 60 * am →
      { b with status := ORPHANED } ∈
        (cleanup_orphaned_builds pool am now db).builds) ∧
    (∀ (d : Daemon) (p : WorkerPool) (db : DB) (now : Int) (b : Build)
      (db2 : DB), d.build_id = none →
      d.find_build p db now = .found b db2 → b.status = QUEUED) := by
  constructor
  · intro db pool am now b hb h1 h2 h3
    simp only [cleanup_orphaned_builds, orphanQueuedSweep, stuckAbortSweep]
    refine List.mem_map.mpr ⟨{ b with status := ORPHANED }, ?_, by simp⟩
    exact List.mem_map.mpr ⟨b, hb, by simp [h1, h2, h3]⟩
  · intro d p db now b db2 hmode hfind
    have hm := (find_build_found_inv d p db now b db2 hmode hfind).1
    have hfe := minById_mem _ _ hm
    have h2 := (List.mem_filter.mp hfe).2
    simp only [eligibleB, decide_eq_true_eq] at h2
    exact h2.1

/-- Witness for C6: a QUEUED build of pool "p" queued far past the
60-minute window is a member, with status ORPHANED, of the reaped
store. -/
theorem orphan_sweep_terminal_unclaimable_witness :
    ({ id := 1, project := 1, worker_pool_name := "p",
       status := Status.ORPHANED, queued_time := -100000 } : Build) ∈
      (cleanup_orphaned_builds "p" 60 0
        (DB.mk [
          { id := 1, project := 1, worker_pool_name := "p",
            status := .QUEUED, queued_time := -100000 }] [])).builds := by
  have h := orphan_sweep_terminal_unclaimable.1
    (DB.mk [
      { id := 1, project := 1, worker_pool_name := "p",
        status := .QUEUED, queued_time := -100000 }] [])
    "p" 60 0
    { id := 1, project := 1, worker_pool_name := "p",
      status := .QUEUED, queued_time := -100000 }
    (by decide) rfl rfl (by decide)
  exact h

/-! ## C7: stuck-abort sweep and its idempotence -/

/-- Claim C7: the stuck-abort sweep turns every build of any pool that
is ABORTING and queued strictly before `now` minus the one-minute grace
period into ABORTED, and running the sweep twice on the same state
equals running it once: the transitioned builds no longer match the
ABORTING predicate. -/
theorem stuck_abort_sweep_aborted_idempotent :
    (∀ (db : DB) (now : Int) (b : Build), b ∈ db.builds →
      b.status = ABORTING →
      b.queued_time < now - 60 * FLAG_ABORTED_AFTER_ABORTING_MINUTES →
      { b with status := ABORTED } ∈ (stuckAbortSweep now db).builds) ∧
    (∀ (db : DB) (now : Int),
      stuckAbortSweep now (stuckAbortSweep now db) = stuckAbortSweep now db) := by
  constructor
  · intro db now b hb h1 h2
    simp only [stuckAbortSweep]
    exact List.mem_map.mpr ⟨b, hb, by simp [h1, h2]⟩
  · intro db now
    simp only [stuckAbortSweep]
    congr 1
    rw [List.map_map]
    apply List.map_congr_left
    intro a _
    by_cases hc : a.status = ABORTING ∧
        a.queued_time < now - 60 * FLAG_ABORTED_AFTER_ABORTING_MINUTES
    · simp [Function.comp, hc]
    · simp [Function.comp, hc]

/-- Witness for C7: a build ABORTING since far before the grace period
is a member, with status ABORTED, of the swept store. -/
theorem stuck_abort_sweep_aborted_idempotent_witness :
    ({ id := 9, project := 2, worker_pool_name := "q",
       status := Status.ABORTED, queued_time := -100000 } : Build) ∈
      (stuckAbortSweep 0
        (DB.mk [
          { id := 9, project := 2, worker_pool_name := "q",
            status := .ABORTING, queued_time := -100000 }] [])).builds := by
  have h := stuck_abort_sweep_aborted_idempotent.1
    (DB.mk [
      { id := 9, project := 2, worker_pool_name := "q",
        status := .ABORTING, queued_time := -100000 }] []) 0
    { id := 9, project := 2, worker_pool_name := "q",
      status := .ABORTING, queued_time := -100000 }
    (by decide) rfl (by decide)
  exact h

end Vespene
